import Mathlib

/-!
Shallow embedding of `load.py` from alfred-notion-quick-access.

The script is a single-pass pipeline: fetch pages from configured Notion
databases (with pagination), transform each record into an Alfred display
item, diff the items against the previous run's cache file by title, print
the new ones, and overwrite the cache file with the full current set.

Network responses are modelled as functions from request parameters to
response values; the filesystem (cache file, icon directory) is explicit
state; the `while True` pagination loop is embedded with fuel, where `none`
means the loop did not terminate within the given fuel; `Except String`
models `sys.exit(msg)` (`exit_with_error`) and uncaught exceptions.
-/

/-- One element of a Notion rich-text array; only `plain_text` is read. -/
structure RichText where
  plain_text : String
deriving DecidableEq, Repr

/-- The `'file'` sub-object of an icon descriptor; only `url` is read. -/
structure FileInfo where
  url : String
deriving DecidableEq, Repr

/-- A Notion icon descriptor. `file = some _` models a JSON object that has
a `'file'` key (a file-hosted icon); `file = none` models an emoji or
external-URL icon object, which has no `'file'` key. -/
structure IconJson where
  file : Option FileInfo
deriving DecidableEq, Repr

/-- One named property of a Notion page: its `'type'` tag and its `'title'`
rich-text array (read only when the property is the title property). -/
structure PropertyInfo where
  type : String
  title : List RichText
deriving DecidableEq, Repr

/-- A Notion page record as the script reads it: `id`, `url`, the ordered
property map (Python dicts preserve insertion order), and the optional
icon descriptor (`none` models JSON `null`). -/
structure NotionPage where
  id : String
  url : String
  properties : List (String × PropertyInfo)
  icon : Option IconJson
deriving DecidableEq, Repr

/-- An Alfred display item, as built by `notion_page_to_alfred_item`.
`icon_path` is the value of the `icon.path` field (`none` models `null`). -/
structure AlfredItem where
  uid : String
  title : String
  subtitle : String
  arg : String
  icon_path : Option String
  autocomplete : String
deriving DecidableEq, Repr

/-- Response to `GET /v1/databases/{id}` (database metadata lookup):
HTTP status and the database's `title` rich-text array. -/
structure MetaResponse where
  status : Nat
  title : List RichText
deriving DecidableEq, Repr

/-- Response to `POST /v1/databases/{id}/query`: HTTP status, the
`results` record array, the `has_more` flag and the `next_cursor` value. -/
structure QueryResponse where
  status : Nat
  results : List NotionPage
  has_more : Bool
  next_cursor : Nat
deriving DecidableEq, Repr

/-- The remote Notion API, modelled as a deterministic server: one response
function per endpoint (metadata lookup by database id, and database query
by database id and pagination cursor). -/
structure NotionAPI where
  meta : String → MetaResponse
  query : String → Nat → QueryResponse

/-- The on-disk state the script touches: the parsed content of
`cache.json` (`none` when the file does not exist), whether the icon
directory exists, and the set of icon file paths present in it. -/
structure FileSystem where
  cache_file : Option (List AlfredItem)
  icons_dir_exists : Bool
  icon_files : List String
deriving DecidableEq, Repr

/-- `to_plain_text`: concatenate the `plain_text` of every rich text. -/
def to_plain_text (rich_texts : List RichText) : String :=
  String.join (rich_texts.map (fun rich_text => rich_text.plain_text))

/-- The scan inside `find_title_property_name`: first entry of the property
map whose `'type'` tag equals `"title"`; `none` models the
`exit_with_error('expected title property from Notion API, none found')`. -/
def find_in_props : List (String × PropertyInfo) → Option String
  | [] => none
  | (property_name, property_info) :: rest =>
      if property_info.type = "title" then some property_name
      else find_in_props rest

/-- `find_title_property_name`: scan a page's property map in order. -/
def find_title_property_name (notion_page_json : NotionPage) : Option String :=
  find_in_props notion_page_json.properties

/-- Python dict lookup `properties[name]`; `none` models a `KeyError`. -/
def lookup_prop (props : List (String × PropertyInfo)) (name : String) :
    Option PropertyInfo :=
  match props with
  | [] => none
  | (property_name, property_info) :: rest =>
      if property_name = name then some property_info
      else lookup_prop rest name

/-! ### `urlparse(url).path`

Embedding of the CPython `urllib.parse.urlparse(...).path` computation for
the path component, used only to take the icon URL's file extension.
Characters are processed as lists. -/

/-- Split at the first occurrence of `sep`: `some (before, after)`, or
`none` when `sep` does not occur. -/
def splitFirstOn (sep : Char) : List Char → Option (List Char × List Char)
  | [] => none
  | c :: rest =>
      if c = sep then some ([], rest)
      else
        match splitFirstOn sep rest with
        | none => none
        | some (a, b) => some (c :: a, b)

/-- Drop everything from the first occurrence of any delimiter on. -/
def takeUntilAny (delims : List Char) : List Char → List Char
  | [] => []
  | c :: rest => if c ∈ delims then [] else c :: takeUntilAny delims rest

/-- Drop up to (and including) the first occurrence of any delimiter; keep
the rest from the delimiter on (used for netloc splitting, which keeps the
delimiter in the remainder). -/
def dropUntilAny (delims : List Char) : List Char → List Char
  | [] => []
  | c :: rest => if c ∈ delims then c :: rest else dropUntilAny delims rest

/-- Characters allowed in a URL scheme after the leading letter. -/
def is_scheme_char (c : Char) : Bool :=
  c.isAlphanum || c = '+' || c = '-' || c = '.'

/-- Remove a leading `scheme:` when the part before the first `:` is a
well-formed scheme (nonempty, leading letter, scheme characters only). -/
def strip_scheme (cs : List Char) : List Char :=
  match splitFirstOn ':' cs with
  | none => cs
  | some (head, rest) =>
      if head ≠ [] && (head.headD ' ').isAlpha && head.all is_scheme_char
      then rest else cs

/-- Remove a leading `//netloc`, keeping the remainder from the first of
`/`, `?`, `#` on. -/
def strip_netloc (cs : List Char) : List Char :=
  match cs with
  | '/' :: '/' :: rest => dropUntilAny ['/', '?', '#'] rest
  | _ => cs

/-- Keep only the part before the first `#` (fragment removal). -/
def strip_fragment (cs : List Char) : List Char :=
  match splitFirstOn '#' cs with
  | none => cs
  | some (a, _) => a

/-- Keep only the part before the first `?` (query removal). -/
def strip_query (cs : List Char) : List Char :=
  match splitFirstOn '?' cs with
  | none => cs
  | some (a, _) => a

/-- Split at the last occurrence of `sep`. -/
def splitLastOn (sep : Char) (cs : List Char) : Option (List Char × List Char) :=
  match splitFirstOn sep cs.reverse with
  | none => none
  | some (a, b) => some (b.reverse, a.reverse)

/-- `_splitparams`: when the path contains `;`, drop the params — looking
only in the last path segment when the path contains `/`. -/
def strip_params (cs : List Char) : List Char :=
  if ';' ∈ cs then
    match splitLastOn '/' cs with
    | some (a, b) =>
        match splitFirstOn ';' b with
        | some (before, _) => a ++ '/' :: before
        | none => cs
    | none =>
        match splitFirstOn ';' cs with
        | some (before, _) => before
        | none => cs
  else cs

/-- `urlparse(url).path`: strip scheme, netloc, fragment, query, params. -/
def urlparse_path (url : String) : String :=
  ⟨strip_params (strip_query (strip_fragment (strip_netloc (strip_scheme url.data))))⟩

/-- `urlparse(icon_url).path.split('.')[-1]`: the URL's file extension —
everything after the last dot of the path, or the whole path when it
contains no dot (matching Python `split`). -/
def file_extension_of (icon_url : String) : String :=
  match splitLastOn '.' (urlparse_path icon_url).data with
  | none => urlparse_path icon_url
  | some (_, after) => ⟨after⟩

/-- The local icon path `icons_dir.joinpath(f'{page_id}.{file_extension}')`. -/
def local_icon_path_of (icons_dir page_id ext : String) : String :=
  icons_dir ++ "/" ++ page_id ++ "." ++ ext

/-- `download_icon_and_return_local_path`. First component: the returned
path (`none` when the icon is absent or has no `'file'` key). Second
component: the background download launched by the `curl` shell-out, as a
`(local path, remote url)` pair, or `none` when no download is launched.
The disk is a snapshot of existing paths; the fire-and-forget download does
not change it synchronously. -/
def download_icon_and_return_local_path (icons_dir : String)
    (disk : List String) (page_id : String) (icon_json : Option IconJson) :
    Option String × Option (String × String) :=
  match icon_json with
  | none => (none, none)
  | some ij =>
      match ij.file with
      | none => (none, none)
      | some file_info =>
          let icon_url := file_info.url
          let file_extension := file_extension_of icon_url
          let local_icon_path := local_icon_path_of icons_dir page_id file_extension
          if local_icon_path ∈ disk then (some local_icon_path, none)
          else (some local_icon_path, some (local_icon_path, icon_url))

/-- `re.sub(r'^https', 'notion', url)`: rewrite a leading `https` to
`notion` (anchored at the start, at most once). -/
def rewrite_url_scheme (url : String) : String :=
  if "https".data.isPrefixOf url.data then ⟨"notion".data ++ url.data.drop 5⟩
  else url

/-- `notion_page_to_alfred_item`: build the Alfred item for one record.
`none` models the `KeyError` when the title property name is not a key of
the record's property map. Returns the item and the launched icon
download, when any. -/
def notion_page_to_alfred_item (icons_dir : String) (disk : List String)
    (notion_page_dict : NotionPage) (title_property_name : String)
    (database_title : String) :
    Option (AlfredItem × Option (String × String)) :=
  match lookup_prop notion_page_dict.properties title_property_name with
  | none => none
  | some property_info =>
      let page_id := notion_page_dict.id
      let page_title := to_plain_text property_info.title
      let page_url := rewrite_url_scheme notion_page_dict.url
      let iconResult :=
        download_icon_and_return_local_path icons_dir disk page_id
          notion_page_dict.icon
      some ({ uid := page_id, title := page_title, subtitle := database_title,
              arg := page_url, icon_path := iconResult.1,
              autocomplete := page_title }, iconResult.2)

/-- `difference_with_cache`: when the cache file does not exist, return the
items unchanged; otherwise keep only the items whose title is not among the
cached items' titles. -/
def difference_with_cache (cache_file : Option (List AlfredItem))
    (alfred_items : List AlfredItem) : List AlfredItem :=
  match cache_file with
  | none => alfred_items
  | some cached_results =>
      let cached_page_titles := cached_results.map AlfredItem.title
      alfred_items.filter (fun item => decide (item.title ∉ cached_page_titles))

/-- `update_cache_file`: overwrite `cache.json` with the full item list. -/
def update_cache_file (alfred_items : List AlfredItem) (fs : FileSystem) :
    FileSystem :=
  { fs with cache_file := some alfred_items }

/-- `delete_icon_cache_if_necessary`: when `--refresh-icons` is among the
command-line arguments and the icon directory exists, `shutil.rmtree` the
whole icon directory. -/
def delete_icon_cache_if_necessary (argv : List String) (fs : FileSystem) :
    FileSystem :=
  if "--refresh-icons" ∈ argv ∧ fs.icons_dir_exists then
    { fs with icons_dir_exists := false, icon_files := [] }
  else fs

/-- `make_sure_the_cache_directories_exist`: `mkdir -p` both directories
(creating an empty icon directory when absent; existing files untouched). -/
def make_sure_the_cache_directories_exist (fs : FileSystem) : FileSystem :=
  { fs with icons_dir_exists := true }

/-- `retrieve_database_title`: `GET` the database metadata; any non-200
status is `exit_with_error()` (message `"error"`). -/
def retrieve_database_title (api : NotionAPI) (database_id : String) :
    Except String String :=
  let response := api.meta database_id
  if response.status ≠ 200 then Except.error "error"
  else Except.ok (to_plain_text response.title)

/-- Map a fallible function over a list, failing on the first failure:
the effect of Python building a list where any element may raise. -/
def omap {α β : Type} (f : α → Option β) : List α → Option (List β)
  | [] => some []
  | x :: xs =>
      match f x, omap f xs with
      | some y, some ys => some (y :: ys)
      | _, _ => none

/-- The `while True` pagination loop of
`talk_to_notion_api_and_create_alfred_items`, with fuel. `none`: the loop
did not finish within the fuel. `some (Except.error msg)`: the process
exited via `exit_with_error` (or a `KeyError`, message `"KeyError"`).
`some (Except.ok (items, cursors))`: the collected Alfred items together
with the trace of pagination cursors sent, one per query request made. -/
def query_loop (api : NotionAPI) (icons_dir : String) (disk : List String)
    (database_id : String) :
    Nat → Nat → Option (Except String (List AlfredItem × List Nat))
  | 0, _ => none
  | fuel + 1, pagination_cursor =>
      match retrieve_database_title api database_id with
      | Except.error e => some (Except.error e)
      | Except.ok database_title =>
          let response := api.query database_id pagination_cursor
          if response.status ≠ 200 then some (Except.error "error")
          else
            match response.results with
            | [] => some (Except.ok ([], [pagination_cursor]))
            | first :: rest =>
                match find_title_property_name first with
                | none =>
                    some (Except.error
                      "expected title property from Notion API, none found")
                | some title_property_name =>
                    match omap (fun page_dict =>
                        (notion_page_to_alfred_item icons_dir disk page_dict
                          title_property_name database_title).map Prod.fst)
                        (first :: rest) with
                    | none => some (Except.error "KeyError")
                    | some page_items =>
                        if response.has_more = false then
                          some (Except.ok (page_items, [pagination_cursor]))
                        else
                          match query_loop api icons_dir disk database_id fuel
                              response.next_cursor with
                          | none => none
                          | some (Except.error e) => some (Except.error e)
                          | some (Except.ok (rest_items, rest_cursors)) =>
                              some (Except.ok (page_items ++ rest_items,
                                pagination_cursor :: rest_cursors))

/-- `talk_to_notion_api_and_create_alfred_items`: run the pagination loop
from the initial cursor `0`, keeping only the item list. -/
def talk_to_notion_api_and_create_alfred_items (api : NotionAPI)
    (icons_dir : String) (disk : List String) (database_id : String)
    (fuel : Nat) : Option (Except String (List AlfredItem)) :=
  (query_loop api icons_dir disk database_id fuel 0).map
    (fun r => r.map Prod.fst)

/-- The `main` loop over `database_ids`, concatenating each database's
items; the first error aborts the whole run. -/
def fetch_all (api : NotionAPI) (icons_dir : String) (disk : List String)
    (fuel : Nat) : List String → Option (Except String (List AlfredItem))
  | [] => some (Except.ok [])
  | database_id :: rest =>
      match talk_to_notion_api_and_create_alfred_items api icons_dir disk
          database_id fuel with
      | none => none
      | some (Except.error e) => some (Except.error e)
      | some (Except.ok items) =>
          match fetch_all api icons_dir disk fuel rest with
          | none => none
          | some (Except.error e) => some (Except.error e)
          | some (Except.ok more) => some (Except.ok (items ++ more))

/-- Outcome of one invocation of the script: what was written to standard
output (`Except.error`: the process exited with that message and wrote no
items), and the final filesystem state. -/
structure MainResult where
  printed : Except String (List AlfredItem)
  final_fs : FileSystem
deriving Repr

/-- `main`: purge the icon cache when asked, ensure the cache directories,
fetch all databases, print the difference with the cache file, overwrite
the cache file with the complete current item set. -/
def main_run (argv : List String) (api : NotionAPI) (icons_dir : String)
    (database_ids : List String) (fuel : Nat) (fs₀ : FileSystem) :
    Option MainResult :=
  let fs₂ :=
    make_sure_the_cache_directories_exist
      (delete_icon_cache_if_necessary argv fs₀)
  match fetch_all api icons_dir fs₂.icon_files fuel database_ids with
  | none => none
  | some (Except.error e) => some ⟨Except.error e, fs₂⟩
  | some (Except.ok alfred_items) =>
      some ⟨Except.ok (difference_with_cache fs₂.cache_file alfred_items),
        update_cache_file alfred_items fs₂⟩

/-! ### Pagination chains

Scaffolding for reasoning about the pagination loop: a finite list of
query responses that a deterministic server produces when the loop carries
each response's `next_cursor` into the following request. -/

/-- `serves_from q c rs`: starting from cursor `c`, the server `q` answers
the successive requests with exactly the responses `rs`, each request after
the first carrying the previous response's `next_cursor`. -/
def serves_from (q : Nat → QueryResponse) : Nat → List QueryResponse → Prop
  | _, [] => True
  | c, r :: rest => q c = r ∧ serves_from q r.next_cursor rest

/-- `successful_pages rs`: `rs` is a complete successful run of the loop:
every response has status 200, every response before the last has records
and `has_more`, and the last either has no records or reports no more
pages (the loop's two stopping conditions). -/
def successful_pages : List QueryResponse → Prop
  | [] => False
  | [r] => r.status = 200 ∧ (r.results = [] ∨ r.has_more = false)
  | r :: rest => r.status = 200 ∧ r.results ≠ [] ∧ r.has_more = true ∧
      successful_pages rest

/-- The Alfred items one page of results yields: none for an empty page;
otherwise the title property name is taken from the first record and each
record of the page is converted with it (`none`: the conversion aborts). -/
def page_items_of (icons_dir : String) (disk : List String)
    (database_title : String) (r : QueryResponse) : Option (List AlfredItem) :=
  match r.results with
  | [] => some []
  | first :: rest =>
      match find_title_property_name first with
      | none => none
      | some title_property_name =>
          omap (fun page_dict =>
              (notion_page_to_alfred_item icons_dir disk page_dict
                title_property_name database_title).map Prod.fst)
            (first :: rest)

/-- The cursors the loop sends while consuming the responses `rs` starting
from cursor `c`: the initial cursor, then each response's `next_cursor`. -/
def sent_cursors (c : Nat) : List QueryResponse → List Nat
  | [] => []
  | r :: rest => c :: sent_cursors r.next_cursor rest

/-! ### Concrete sample values

Small concrete inputs used to instantiate the theorems below on closed
terms. -/

/-- A property of type `"title"` with plain text `"A"`. -/
def sampleTitleProp : PropertyInfo :=
  { type := "title", title := [{ plain_text := "A" }] }

/-- A property that is not of type `"title"`. -/
def samplePlainProp : PropertyInfo :=
  { type := "rich_text", title := [] }

/-- A page whose title property is named `"Name"`, no icon. -/
def samplePage1 : NotionPage :=
  { id := "p1", url := "https://www.notion.so/p1",
    properties := [("Name", sampleTitleProp)], icon := none }

/-- A page with a file-hosted icon and title `"B"`. -/
def samplePage2 : NotionPage :=
  { id := "p2", url := "https://www.notion.so/p2",
    properties :=
      [("Name", { type := "title", title := [{ plain_text := "B" }] })],
    icon := some { file := some { url := "https://files.example/icons/b.png" } } }

/-- A page with no property of type `"title"`. -/
def sampleNoTitlePage : NotionPage :=
  { id := "p3", url := "https://www.notion.so/p3",
    properties := [("Note", samplePlainProp)], icon := none }

/-- First page of a two-page chain: has more, next cursor `7`. -/
def sampleRespA : QueryResponse :=
  { status := 200, results := [samplePage1], has_more := true, next_cursor := 7 }

/-- Second page of the chain: last page, no more results. -/
def sampleRespB : QueryResponse :=
  { status := 200, results := [samplePage2], has_more := false, next_cursor := 0 }

/-- A server that answers the metadata lookup with title `"DB"` and serves
the two-page chain `sampleRespA`, `sampleRespB`. -/
def sampleAPI : NotionAPI :=
  { meta := fun _ => { status := 200, title := [{ plain_text := "DB" }] },
    query := fun _ cursor => if cursor = 7 then sampleRespB else sampleRespA }

/-- A server whose metadata lookup fails with HTTP 500. -/
def sampleBadMetaAPI : NotionAPI :=
  { meta := fun _ => { status := 500, title := [] },
    query := fun _ _ => sampleRespB }

/-- A server whose metadata lookup succeeds but whose query returns 429. -/
def sampleBadQueryAPI : NotionAPI :=
  { meta := fun _ => { status := 200, title := [{ plain_text := "DB" }] },
    query := fun _ _ =>
      { status := 429, results := [], has_more := false, next_cursor := 0 } }

/-- A server returning one page whose record has no title-typed property. -/
def sampleNoTitleAPI : NotionAPI :=
  { meta := fun _ => { status := 200, title := [{ plain_text := "DB" }] },
    query := fun _ _ =>
      { status := 200, results := [sampleNoTitlePage], has_more := false,
        next_cursor := 0 } }

/-- An item with title `"A"`. -/
def sampleItemA : AlfredItem :=
  { uid := "p1", title := "A", subtitle := "DB", arg := "notion://a",
    icon_path := none, autocomplete := "A" }

/-- An item with the same title `"A"` but a different identifier. -/
def sampleItemA2 : AlfredItem :=
  { uid := "p9", title := "A", subtitle := "DB", arg := "notion://a2",
    icon_path := none, autocomplete := "A" }

/-- An item with title `"B"`. -/
def sampleItemB : AlfredItem :=
  { uid := "p2", title := "B", subtitle := "DB", arg := "notion://b",
    icon_path := none, autocomplete := "B" }

/-- A filesystem state with no cache file and one cached icon file. -/
def sampleFS : FileSystem :=
  { cache_file := none, icons_dir_exists := true,
    icon_files := ["/icons/old.png"] }

/-- The items `sampleAPI` yields across its two pages against an empty
icon directory. -/
def sampleRunItems : List AlfredItem :=
  [{ uid := "p1", title := "A", subtitle := "DB",
     arg := "notion://www.notion.so/p1", icon_path := none,
     autocomplete := "A" },
   { uid := "p2", title := "B", subtitle := "DB",
     arg := "notion://www.notion.so/p2", icon_path := some "/icons/p2.png",
     autocomplete := "B" }]

/-! ### Helper lemmas -/

/-- A successful metadata lookup yields the database title. -/
theorem retrieve_database_title_ok (api : NotionAPI) (db : String)
    (h : (api.meta db).status = 200) :
    retrieve_database_title api db =
      Except.ok (to_plain_text (api.meta db).title) := by
  simp [retrieve_database_title, h]

/-- `omap` preserves length when it succeeds. -/
theorem omap_length {α β : Type} (f : α → Option β) :
    ∀ xs ys, omap f xs = some ys → ys.length = xs.length := by
  intro xs
  induction xs with
  | nil => intro ys h; simp [omap] at h; simp [h.symm]
  | cons x xs ih =>
      intro ys h
      simp only [omap] at h
      cases hfx : f x with
      | none => rw [hfx] at h; simp at h
      | some y =>
          rw [hfx] at h
          cases hrec : omap f xs with
          | none => rw [hrec] at h; simp at h
          | some ys' =>
              rw [hrec] at h
              simp at h
              rw [h.symm]
              simp [ih ys' hrec]

/-! ### Claims about the cache diff -/

/-- C1: an item is excluded from the printed output iff its title is among
the previous run's cached titles; the printed output is exactly the
sublist of current items whose titles are not cached; identifiers play no
role — rewriting every cached item's identifier, or every current item's
identifier, does not change which titles are excluded. -/
theorem C1_diff_excludes_by_title_only (cached alfred_items : List AlfredItem)
    (f g : String → String) :
    difference_with_cache (some cached) alfred_items =
      alfred_items.filter
        (fun item => decide (item.title ∉ cached.map AlfredItem.title))
    ∧ (∀ item, item ∈ alfred_items →
        (item ∈ difference_with_cache (some cached) alfred_items ↔
          item.title ∉ cached.map AlfredItem.title))
    ∧ difference_with_cache
        (some (cached.map (fun cachedItem =>
          { cachedItem with uid := f cachedItem.uid }))) alfred_items =
      difference_with_cache (some cached) alfred_items
    ∧ difference_with_cache (some cached)
        (alfred_items.map (fun item => { item with uid := g item.uid })) =
      (difference_with_cache (some cached) alfred_items).map
        (fun item => { item with uid := g item.uid }) := by
  refine ⟨rfl, ?_, ?_, ?_⟩
  · intro item hmem
    simp [difference_with_cache, hmem]
  · have htitle : (AlfredItem.title ∘ fun cachedItem : AlfredItem =>
        { cachedItem with uid := f cachedItem.uid }) = AlfredItem.title :=
      funext (fun _ => rfl)
    simp only [difference_with_cache, List.map_map, htitle]
  · have hcomp : ((fun item : AlfredItem =>
        decide (item.title ∉ cached.map AlfredItem.title)) ∘
        fun item : AlfredItem => { item with uid := g item.uid }) =
        fun item : AlfredItem =>
          decide (item.title ∉ cached.map AlfredItem.title) :=
      funext (fun _ => rfl)
    simp only [difference_with_cache, List.filter_map, hcomp]

/-- Witness for C1 at concrete inputs: `sampleItemA2` shares the title of
the cached `sampleItemA` but not its identifier, and is excluded. -/
theorem C1_diff_excludes_by_title_only_witness :
    sampleItemA2 ∈ [sampleItemA2, sampleItemB]
    ∧ (sampleItemA2 ∈
        difference_with_cache (some [sampleItemA]) [sampleItemA2, sampleItemB] ↔
        sampleItemA2.title ∉ [sampleItemA].map AlfredItem.title) :=
  ⟨by decide,
   (C1_diff_excludes_by_title_only [sampleItemA] [sampleItemA2, sampleItemB]
      id id).2.1 sampleItemA2 (by decide)⟩

/-- C2: after a run overwrites the cache file with the item list `L`, a
second run fetching the identical list computes an empty difference and
prints an empty items array. -/
theorem C2_rerun_prints_nothing (fs : FileSystem)
    (alfred_items : List AlfredItem) :
    difference_with_cache ((update_cache_file alfred_items fs).cache_file)
      alfred_items = [] := by
  simp only [update_cache_file, difference_with_cache]
  rw [List.filter_eq_nil_iff]
  intro item hmem
  simp [List.mem_map_of_mem AlfredItem.title hmem]

/-- C10: with no cache file the diff returns the current items unchanged;
and current items are only diffed against the previous cache, never
against each other — every current item whose title is not cached is
printed, with its multiplicity preserved, so two current items sharing an
uncached title are both printed. -/
theorem C10_no_cache_passthrough_and_no_self_dedup
    (alfred_items cached : List AlfredItem) :
    difference_with_cache none alfred_items = alfred_items
    ∧ (∀ item, item ∈ alfred_items →
        item.title ∉ cached.map AlfredItem.title →
        item ∈ difference_with_cache (some cached) alfred_items)
    ∧ (∀ item : AlfredItem, item.title ∉ cached.map AlfredItem.title →
        (difference_with_cache (some cached) alfred_items).count item =
          alfred_items.count item) := by
  refine ⟨rfl, ?_, ?_⟩
  · intro item hmem htitle
    simp only [difference_with_cache, List.mem_filter]
    exact ⟨hmem, by simpa using htitle⟩
  · intro item htitle
    simp only [difference_with_cache]
    exact List.count_filter (by simpa using htitle)

/-- Witness for C10: two distinct current items with the same uncached
title `"A"` are both kept (count 1 each; the passthrough list keeps both). -/
theorem C10_no_cache_passthrough_and_no_self_dedup_witness :
    difference_with_cache none [sampleItemA, sampleItemA2] =
      [sampleItemA, sampleItemA2]
    ∧ sampleItemA.title ∉ [sampleItemB].map AlfredItem.title
    ∧ (difference_with_cache (some [sampleItemB])
        [sampleItemA, sampleItemA2]).count sampleItemA =
      [sampleItemA, sampleItemA2].count sampleItemA :=
  ⟨(C10_no_cache_passthrough_and_no_self_dedup [sampleItemA, sampleItemA2]
      [sampleItemB]).1,
   by decide,
   (C10_no_cache_passthrough_and_no_self_dedup [sampleItemA, sampleItemA2]
      [sampleItemB]).2.2 sampleItemA (by decide)⟩

/-! ### Claims about icon materialization -/

/-- C6: the returned icon path is `none` when the record's icon descriptor
is absent or has no `'file'` entry (emoji or external-URL icon); a non-null
path arises only from a file-hosted icon; accordingly the built Alfred
item's icon path is `none` in those cases. -/
theorem C6_icon_path_null_unless_file_hosted (icons_dir : String)
    (disk : List String) (page_id : String) (ij : IconJson)
    (page : NotionPage) (tpn dbt : String) (item : AlfredItem)
    (dl : Option (String × String)) :
    (download_icon_and_return_local_path icons_dir disk page_id none).1 = none
    ∧ (ij.file = none →
        (download_icon_and_return_local_path icons_dir disk page_id
          (some ij)).1 = none)
    ∧ (∀ icon_json,
        (download_icon_and_return_local_path icons_dir disk page_id
          icon_json).1 ≠ none →
        ∃ ij' file_info, icon_json = some ij' ∧ ij'.file = some file_info)
    ∧ ((page.icon = none ∨ ∃ ij', page.icon = some ij' ∧ ij'.file = none) →
        notion_page_to_alfred_item icons_dir disk page tpn dbt =
          some (item, dl) →
        item.icon_path = none) := by
  refine ⟨rfl, ?_, ?_, ?_⟩
  · intro hfile
    simp [download_icon_and_return_local_path, hfile]
  · intro icon_json hne
    match icon_json with
    | none => exact absurd rfl hne
    | some ij' =>
        match hf : ij'.file with
        | none =>
            exfalso
            apply hne
            simp [download_icon_and_return_local_path, hf]
        | some file_info => exact ⟨ij', file_info, rfl, hf⟩
  · intro hicon hitem
    simp only [notion_page_to_alfred_item] at hitem
    cases hlk : lookup_prop page.properties tpn with
    | none => rw [hlk] at hitem; simp at hitem
    | some property_info =>
        rw [hlk] at hitem
        simp only [Option.some.injEq, Prod.mk.injEq] at hitem
        have hpath : item.icon_path =
            (download_icon_and_return_local_path icons_dir disk page.id
              page.icon).1 := by
          rw [← hitem.1]
        rcases hicon with hnone | ⟨ij', hij, hfile⟩
        · rw [hpath, hnone]
          rfl
        · rw [hpath, hij]
          simp [download_icon_and_return_local_path, hfile]

/-- Witness for C6: `sampleNoTitlePage` has no icon, and an emoji-style
descriptor (no `'file'` entry) yields no path; a built item with an
icon-less page carries `icon_path = none`. -/
theorem C6_icon_path_null_unless_file_hosted_witness :
    IconJson.file { file := none } = none
    ∧ (download_icon_and_return_local_path "/icons" [] "p1"
        (some { file := none })).1 = none :=
  ⟨rfl,
   (C6_icon_path_null_unless_file_hosted "/icons" [] "p1" { file := none }
      samplePage1 "Name" "DB" sampleItemA none).2.1 rfl⟩

/-- C7: for a file-backed icon the local cache filename is the record
identifier joined to the URL's file extension under the icon directory, a
download is launched exactly when that file is not already on disk, and
the local path is returned in every case. -/
theorem C7_file_icon_cached_download (icons_dir : String)
    (disk : List String) (page_id icon_url : String) :
    download_icon_and_return_local_path icons_dir disk page_id
        (some { file := some { url := icon_url } }) =
      (some (local_icon_path_of icons_dir page_id
          (file_extension_of icon_url)),
        if local_icon_path_of icons_dir page_id (file_extension_of icon_url)
            ∈ disk then none
        else (some (local_icon_path_of icons_dir page_id
            (file_extension_of icon_url), icon_url))) := by
  simp only [download_icon_and_return_local_path]
  by_cases hmem : local_icon_path_of icons_dir page_id
      (file_extension_of icon_url) ∈ disk
  · simp [hmem]
  · simp [hmem]

/-! ### Claims about the icon cache purge, fail-fast errors and the cache
file overwrite -/

/-- C9: with the `--refresh-icons` flag the whole icon cache directory is
removed (and recreated empty) before anything else — the run proceeds
exactly as it would from an empty icon directory; without the flag the
existing icon files are left in place. `hwf` states the trivial on-disk
invariant that a non-existent directory holds no files. -/
theorem C9_refresh_flag_purges_icon_cache (argv : List String)
    (fs₀ : FileSystem)
    (hwf : fs₀.icons_dir_exists = false → fs₀.icon_files = []) :
    ("--refresh-icons" ∈ argv →
      (delete_icon_cache_if_necessary argv fs₀).icon_files = []
      ∧ (make_sure_the_cache_directories_exist
          (delete_icon_cache_if_necessary argv fs₀)).icon_files = []
      ∧ ∀ (api : NotionAPI) (icons_dir : String) (database_ids : List String)
          (fuel : Nat),
          main_run argv api icons_dir database_ids fuel fs₀ =
            main_run argv api icons_dir database_ids fuel
              { fs₀ with icons_dir_exists := false, icon_files := [] })
    ∧ ("--refresh-icons" ∉ argv →
        delete_icon_cache_if_necessary argv fs₀ = fs₀
        ∧ (make_sure_the_cache_directories_exist
            (delete_icon_cache_if_necessary argv fs₀)).icon_files =
          fs₀.icon_files) := by
  constructor
  · intro hflag
    by_cases hex : fs₀.icons_dir_exists
    · have hdel : delete_icon_cache_if_necessary argv fs₀ =
          { fs₀ with icons_dir_exists := false, icon_files := [] } := by
        simp [delete_icon_cache_if_necessary, hflag, hex]
      refine ⟨by rw [hdel],
        by simp [hdel, make_sure_the_cache_directories_exist], ?_⟩
      intro api icons_dir database_ids fuel
      have hdel' : delete_icon_cache_if_necessary argv
          { fs₀ with icons_dir_exists := false, icon_files := [] } =
          { fs₀ with icons_dir_exists := false, icon_files := [] } := by
        simp [delete_icon_cache_if_necessary]
      simp only [main_run, hdel, hdel']
    · have hexf : fs₀.icons_dir_exists = false := by simpa using hex
      have hfiles := hwf hexf
      have hdel : delete_icon_cache_if_necessary argv fs₀ = fs₀ := by
        simp [delete_icon_cache_if_necessary, hex]
      have hfs : { fs₀ with icons_dir_exists := false, icon_files := [] } =
          fs₀ := by
        cases fs₀ with
        | mk cache ex files =>
            simp only at hexf hfiles ⊢
            rw [hexf, hfiles]
      refine ⟨by rw [hdel]; exact hfiles,
        by simp [hdel, make_sure_the_cache_directories_exist, hfiles], ?_⟩
      intro api icons_dir database_ids fuel
      rw [hfs]
  · intro hflag
    have hdel : delete_icon_cache_if_necessary argv fs₀ = fs₀ := by
      simp [delete_icon_cache_if_necessary, hflag]
    exact ⟨hdel, by simp [hdel, make_sure_the_cache_directories_exist]⟩

/-- Witness for C9: the flag empties a non-empty icon directory; without
the flag the filesystem state is untouched. -/
theorem C9_refresh_flag_purges_icon_cache_witness :
    (delete_icon_cache_if_necessary ["--refresh-icons"] sampleFS).icon_files
      = []
    ∧ delete_icon_cache_if_necessary [] sampleFS = sampleFS :=
  ⟨((C9_refresh_flag_purges_icon_cache ["--refresh-icons"] sampleFS
      (by decide)).1 (by decide)).1,
   ((C9_refresh_flag_purges_icon_cache [] sampleFS (by decide)).2
      (by decide)).1⟩

/-- C3: a non-200 status on either the metadata lookup or the query (at
any cursor) makes the loop exit at once with the generic message
`"error"`; an error while fetching any configured database (all earlier
databases having succeeded) aborts the whole run; an aborted run prints
nothing (`printed` is the error, no items array) and leaves the cache file
exactly as it was — no partial result set. -/
theorem C3_non_200_fails_fast_without_output (argv : List String)
    (api : NotionAPI) (icons_dir : String) (disk : List String)
    (database_ids : List String) (fuel : Nat) (fs₀ : FileSystem)
    (db : String) (c fuel' : Nat) (e : String) :
    (((api.meta db).status ≠ 200 ∨ (api.query db c).status ≠ 200) →
      query_loop api icons_dir disk db (fuel' + 1) c =
        some (Except.error "error"))
    ∧ (∀ pre : List String,
        (∀ d ∈ pre, ∃ items,
          talk_to_notion_api_and_create_alfred_items api icons_dir disk d
            fuel = some (Except.ok items)) →
        talk_to_notion_api_and_create_alfred_items api icons_dir disk db
          fuel = some (Except.error e) →
        fetch_all api icons_dir disk fuel (pre ++ db :: database_ids) =
          some (Except.error e))
    ∧ (fetch_all api icons_dir
        (make_sure_the_cache_directories_exist
          (delete_icon_cache_if_necessary argv fs₀)).icon_files fuel
        database_ids = some (Except.error e) →
      main_run argv api icons_dir database_ids fuel fs₀ =
        some ⟨Except.error e,
          make_sure_the_cache_directories_exist
            (delete_icon_cache_if_necessary argv fs₀)⟩
      ∧ (make_sure_the_cache_directories_exist
          (delete_icon_cache_if_necessary argv fs₀)).cache_file =
        fs₀.cache_file) := by
  refine ⟨?_, ?_, ?_⟩
  · intro h
    by_cases hmeta : (api.meta db).status = 200
    · have hq : (api.query db c).status ≠ 200 := by
        rcases h with h | h
        · exact absurd hmeta h
        · exact h
      simp only [query_loop, retrieve_database_title_ok api db hmeta]
      simp [hq]
    · have hret : retrieve_database_title api db = Except.error "error" := by
        simp [retrieve_database_title, hmeta]
      simp only [query_loop, hret]
  · intro pre
    induction pre with
    | nil =>
        intro _ htalk
        simp only [List.nil_append, fetch_all, htalk]
    | cons d ds ih =>
        intro hpre htalk
        obtain ⟨items, hd⟩ := hpre d (by simp)
        have hrest := ih (fun d' hd' => hpre d' (by simp [hd'])) htalk
        simp only [List.cons_append, fetch_all, hd, List.append_eq, hrest]
  · intro hfetch
    refine ⟨by simp only [main_run, hfetch], ?_⟩
    simp only [make_sure_the_cache_directories_exist,
      delete_icon_cache_if_necessary]
    split <;> rfl

/-- Witness for C3: a 429 on the query endpoint stops the loop with the
generic error; a 500 on the metadata endpoint aborts the whole run with
the error result and the cache file still absent. -/
theorem C3_non_200_fails_fast_without_output_witness :
    ((sampleBadQueryAPI.meta "db").status ≠ 200
      ∨ (sampleBadQueryAPI.query "db" 0).status ≠ 200)
    ∧ query_loop sampleBadQueryAPI "/icons" [] "db" 1 0 =
        some (Except.error "error")
    ∧ main_run [] sampleBadMetaAPI "/icons" ["db"] 1 sampleFS =
        some ⟨Except.error "error",
          make_sure_the_cache_directories_exist
            (delete_icon_cache_if_necessary [] sampleFS)⟩ :=
  ⟨Or.inr (by decide),
   (C3_non_200_fails_fast_without_output [] sampleBadQueryAPI "/icons" []
      [] 1 sampleFS "db" 0 0 "error").1 (Or.inr (by decide)),
   ((C3_non_200_fails_fast_without_output [] sampleBadMetaAPI "/icons" []
      ["db"] 1 sampleFS "db" 0 0 "error").2.2 (by rfl)).1⟩

/-- C8: whenever the fetch succeeds, `main` prints the cache difference
and overwrites the cache file with the complete current item set — the
whole fetched list, including the items suppressed from the printed
output. -/
theorem C8_cache_overwritten_with_full_set (argv : List String)
    (api : NotionAPI) (icons_dir : String) (database_ids : List String)
    (fuel : Nat) (fs₀ : FileSystem) (alfred_items : List AlfredItem)
    (h : fetch_all api icons_dir
        (make_sure_the_cache_directories_exist
          (delete_icon_cache_if_necessary argv fs₀)).icon_files fuel
        database_ids = some (Except.ok alfred_items)) :
    main_run argv api icons_dir database_ids fuel fs₀ =
      some ⟨Except.ok (difference_with_cache
          (make_sure_the_cache_directories_exist
            (delete_icon_cache_if_necessary argv fs₀)).cache_file
          alfred_items),
        update_cache_file alfred_items
          (make_sure_the_cache_directories_exist
            (delete_icon_cache_if_necessary argv fs₀))⟩
    ∧ (update_cache_file alfred_items
        (make_sure_the_cache_directories_exist
          (delete_icon_cache_if_necessary argv fs₀))).cache_file =
      some alfred_items :=
  ⟨by simp only [main_run, h], rfl⟩

/-- Witness for C8: the two-page `sampleAPI` run overwrites the (absent)
cache file with both fetched items, including all items printed. -/
theorem C8_cache_overwritten_with_full_set_witness :
    (update_cache_file sampleRunItems
      (make_sure_the_cache_directories_exist
        (delete_icon_cache_if_necessary [] sampleFS))).cache_file =
      some sampleRunItems :=
  (C8_cache_overwritten_with_full_set [] sampleAPI "/icons" ["db"] 2
    sampleFS sampleRunItems (by rfl)).2

/-! ### Step lemmas for the pagination loop -/

/-- One loop iteration on an empty page: stop with no items. -/
theorem query_loop_empty_page (api : NotionAPI) (icons_dir : String)
    (disk : List String) (db : String) (fuel c : Nat)
    (hmeta : (api.meta db).status = 200)
    (hq : (api.query db c).status = 200)
    (hres : (api.query db c).results = []) :
    query_loop api icons_dir disk db (fuel + 1) c =
      some (Except.ok ([], [c])) := by
  simp only [query_loop, retrieve_database_title_ok api db hmeta]
  simp only [hq, hres]
  simp

/-- One loop iteration when the first record of a non-empty page has no
title-typed property: abort with the dedicated error message. -/
theorem query_loop_no_title_prop (api : NotionAPI) (icons_dir : String)
    (disk : List String) (db : String) (fuel c : Nat) (first : NotionPage)
    (rest : List NotionPage)
    (hmeta : (api.meta db).status = 200)
    (hq : (api.query db c).status = 200)
    (hres : (api.query db c).results = first :: rest)
    (hfind : find_title_property_name first = none) :
    query_loop api icons_dir disk db (fuel + 1) c =
      some (Except.error
        "expected title property from Notion API, none found") := by
  simp only [query_loop, retrieve_database_title_ok api db hmeta]
  simp only [hq, hres, hfind]
  simp

/-- One successful loop iteration on a non-empty page: collect the page's
items, then stop or continue at the returned cursor as `has_more` says. -/
theorem query_loop_page_step (api : NotionAPI) (icons_dir : String)
    (disk : List String) (db : String) (fuel c : Nat)
    (first : NotionPage) (rest : List NotionPage) (tpn : String)
    (page_items : List AlfredItem)
    (hmeta : (api.meta db).status = 200)
    (hq : (api.query db c).status = 200)
    (hres : (api.query db c).results = first :: rest)
    (hfind : find_title_property_name first = some tpn)
    (homap : omap (fun page_dict =>
        (notion_page_to_alfred_item icons_dir disk page_dict tpn
          (to_plain_text (api.meta db).title)).map Prod.fst)
        (first :: rest) = some page_items) :
    query_loop api icons_dir disk db (fuel + 1) c =
      (if (api.query db c).has_more = false then
        some (Except.ok (page_items, [c]))
      else
        match query_loop api icons_dir disk db fuel
            (api.query db c).next_cursor with
        | none => none
        | some (Except.error e) => some (Except.error e)
        | some (Except.ok (rest_items, rest_cursors)) =>
            some (Except.ok (page_items ++ rest_items, c :: rest_cursors))) := by
  simp only [query_loop, retrieve_database_title_ok api db hmeta]
  simp only [hq, hres, hfind, homap]
  simp

/-- Equation lemma: page items of a response with no records. -/
theorem page_items_of_nil (icons_dir : String) (disk : List String)
    (dbt : String) (r : QueryResponse) (hres : r.results = []) :
    page_items_of icons_dir disk dbt r = some [] := by
  unfold page_items_of
  rw [hres]

/-- Equation lemma: page items of a response with records. -/
theorem page_items_of_cons (icons_dir : String) (disk : List String)
    (dbt : String) (r : QueryResponse) (first : NotionPage)
    (rest : List NotionPage) (hres : r.results = first :: rest) :
    page_items_of icons_dir disk dbt r =
      (match find_title_property_name first with
       | none => none
       | some title_property_name =>
           omap (fun page_dict =>
               (notion_page_to_alfred_item icons_dir disk page_dict
                 title_property_name dbt).map Prod.fst)
             (first :: rest)) := by
  unfold page_items_of
  rw [hres]

/-- Destructor for a successful `omap` on a cons cell. -/
theorem omap_cons_elim {α β : Type} (f : α → Option β) (x : α)
    (xs : List α) (ys : List β) (h : omap f (x :: xs) = some ys) :
    ∃ y ys2, f x = some y ∧ omap f xs = some ys2 ∧ ys = y :: ys2 := by
  simp only [omap] at h
  cases hfx : f x with
  | none => rw [hfx] at h; simp at h
  | some y =>
      rw [hfx] at h
      cases hrec : omap f xs with
      | none => rw [hrec] at h; simp at h
      | some ys2 =>
          rw [hrec] at h
          simp only [Option.some.injEq] at h
          exact ⟨y, ys2, rfl, rfl, h.symm⟩

/-- A successful page conversion yields one item per record. -/
theorem page_items_of_length (icons_dir : String) (disk : List String)
    (dbt : String) (r : QueryResponse) (items : List AlfredItem)
    (h : page_items_of icons_dir disk dbt r = some items) :
    items.length = r.results.length := by
  cases hres : r.results with
  | nil =>
      rw [page_items_of_nil icons_dir disk dbt r hres] at h
      simp only [Option.some.injEq] at h
      simp [h.symm]
  | cons first rest =>
      rw [page_items_of_cons icons_dir disk dbt r first rest hres] at h
      cases hf : find_title_property_name first with
      | none => simp [hf] at h
      | some tpn =>
          simp only [hf] at h
          rw [← omap_length _ _ _ h]

/-- Joining the per-page item lists gives one item per record over all
pages. -/
theorem omap_page_items_flatten_length (icons_dir : String)
    (disk : List String) (dbt : String) :
    forall (ps : List QueryResponse) (itemLists : List (List AlfredItem)),
      omap (page_items_of icons_dir disk dbt) ps = some itemLists →
      itemLists.flatten.length = (ps.map (fun r => r.results.length)).sum := by
  intro ps
  induction ps with
  | nil =>
      intro itemLists h
      simp only [omap, Option.some.injEq] at h
      simp [h.symm]
  | cons r rest ih =>
      intro itemLists h
      obtain ⟨is, ls, hr, hrest, hcons⟩ := omap_cons_elim _ _ _ _ h
      subst hcons
      simp [page_items_of_length icons_dir disk dbt r is hr, ih ls hrest]

/-- The pagination loop consumes a successful response chain whole: with
fuel equal to the number of pages it returns the concatenation of the
per-page item lists and sends exactly the chained cursors. -/
theorem query_loop_chain (api : NotionAPI) (icons_dir : String)
    (disk : List String) (db : String) :
    forall (ps : List QueryResponse) (c : Nat)
      (itemLists : List (List AlfredItem)),
      (api.meta db).status = 200 →
      serves_from (api.query db) c ps →
      successful_pages ps →
      omap (page_items_of icons_dir disk
        (to_plain_text (api.meta db).title)) ps = some itemLists →
      query_loop api icons_dir disk db ps.length c =
        some (Except.ok (itemLists.flatten, sent_cursors c ps)) := by
  intro ps
  induction ps with
  | nil =>
      intro c itemLists _ _ hsucc _
      exact absurd hsucc (by simp [successful_pages])
  | cons r rest ih =>
      intro c itemLists hmeta hserve hsucc hitems
      obtain ⟨hqc, hserve2⟩ := hserve
      obtain ⟨is, ls, hpi, hrest, hcons⟩ := omap_cons_elim _ _ _ _ hitems
      subst hcons
      have hstat : (api.query db c).status = 200 := by
        rw [hqc]
        cases rest with
        | nil => exact hsucc.1
        | cons r2 rest2 => exact hsucc.1
      cases rest with
      | nil =>
          simp only [successful_pages] at hsucc
          obtain ⟨_, hstop⟩ := hsucc
          have hls : ls = [] := by
            simp only [omap, Option.some.injEq] at hrest
            exact hrest.symm
          subst hls
          rcases hstop with hempty | hmore
          · have his : is = [] := by
              rw [page_items_of_nil _ _ _ _ hempty] at hpi
              simp only [Option.some.injEq] at hpi
              exact hpi.symm
            subst his
            have hq0 : (api.query db c).results = [] := by
              rw [hqc]; exact hempty
            simpa [sent_cursors] using
              query_loop_empty_page api icons_dir disk db 0 c hmeta hstat hq0
          · cases hres : r.results with
            | nil =>
                have his : is = [] := by
                  rw [page_items_of_nil _ _ _ _ hres] at hpi
                  simp only [Option.some.injEq] at hpi
                  exact hpi.symm
                subst his
                have hq0 : (api.query db c).results = [] := by
                  rw [hqc]; exact hres
                simpa [sent_cursors] using
                  query_loop_empty_page api icons_dir disk db 0 c hmeta hstat
                    hq0
            | cons first rrest =>
                rw [page_items_of_cons _ _ _ _ first rrest hres] at hpi
                cases hf : find_title_property_name first with
                | none => simp [hf] at hpi
                | some tpn =>
                    simp only [hf] at hpi
                    have hqres : (api.query db c).results = first :: rrest := by
                      rw [hqc]; exact hres
                    have hstep := query_loop_page_step api icons_dir disk db 0
                      c first rrest tpn is hmeta hstat hqres hf hpi
                    have hqmore : (api.query db c).has_more = false := by
                      rw [hqc]; exact hmore
                    rw [hqmore] at hstep
                    simpa [sent_cursors] using hstep
      | cons r2 rest2 =>
          simp only [successful_pages] at hsucc
          obtain ⟨_, hne, hmore, hsucc2⟩ := hsucc
          cases hres : r.results with
          | nil => exact absurd hres hne
          | cons first rrest =>
              rw [page_items_of_cons _ _ _ _ first rrest hres] at hpi
              cases hf : find_title_property_name first with
              | none => simp [hf] at hpi
              | some tpn =>
                  simp only [hf] at hpi
                  have hqres : (api.query db c).results = first :: rrest := by
                    rw [hqc]; exact hres
                  have hstep := query_loop_page_step api icons_dir disk db
                    (r2 :: rest2).length c first rrest tpn is hmeta hstat
                    hqres hf hpi
                  have hqmore : (api.query db c).has_more = true := by
                    rw [hqc]; exact hmore
                  have hrec := ih r.next_cursor ls hmeta hserve2 hsucc2 hrest
                  have hqnext : (api.query db c).next_cursor = r.next_cursor := by
                    rw [hqc]
                  rw [hqmore] at hstep
                  simp only [Bool.true_eq_false, if_false, hqnext, hrec]
                    at hstep
                  simpa [sent_cursors] using hstep

/-- The first title-typed entry of the property map wins: when every
entry of `pre` has another type and `info` is title-typed, the scan
returns `name`. -/
theorem find_in_props_first_title :
    forall (pre : List (String × PropertyInfo)) (name : String)
      (info : PropertyInfo) (post : List (String × PropertyInfo)),
      (∀ p ∈ pre, p.2.type ≠ "title") → info.type = "title" →
      find_in_props (pre ++ (name, info) :: post) = some name := by
  intro pre
  induction pre with
  | nil =>
      intro name info post _ hinfo
      simp [find_in_props, hinfo]
  | cons p ps ih =>
      intro name info post hpre hinfo
      obtain ⟨pn, pi⟩ := p
      have hp : pi.type ≠ "title" := by simpa using hpre (pn, pi) (by simp)
      simp only [List.cons_append, find_in_props]
      rw [if_neg hp]
      exact ih name info post (fun q hq => hpre q (by simp [hq])) hinfo

/-- When no entry of the property map is title-typed, the scan fails. -/
theorem find_in_props_no_title :
    forall (props : List (String × PropertyInfo)),
      (∀ p ∈ props, p.2.type ≠ "title") → find_in_props props = none := by
  intro props
  induction props with
  | nil => intro _; rfl
  | cons p ps ih =>
      intro hpre
      obtain ⟨pn, pi⟩ := p
      have hp : pi.type ≠ "title" := by simpa using hpre (pn, pi) (by simp)
      simp only [find_in_props]
      rw [if_neg hp]
      exact ih (fun q hq => hpre q (by simp [hq]))

/-! ### Claims about pagination and title-property detection -/

/-- C4: across any successful chain of query responses the loop carries
each response's `next_cursor` into the following request (the cursor trace
is exactly the chained one), stops exactly at the first response with no
more pages or zero records (the chain is consumed whole, with fuel equal
to its length), and yields the per-page item lists concatenated in API
order — one display item per record across all pages. -/
theorem C4_pagination_one_item_per_record (api : NotionAPI)
    (icons_dir : String) (disk : List String) (db : String)
    (ps : List QueryResponse) (itemLists : List (List AlfredItem)) (c : Nat)
    (hmeta : (api.meta db).status = 200)
    (hserve : serves_from (api.query db) c ps)
    (hsucc : successful_pages ps)
    (hitems : omap (page_items_of icons_dir disk
        (to_plain_text (api.meta db).title)) ps = some itemLists) :
    query_loop api icons_dir disk db ps.length c =
      some (Except.ok (itemLists.flatten, sent_cursors c ps))
    ∧ itemLists.flatten.length = (ps.map (fun r => r.results.length)).sum :=
  ⟨query_loop_chain api icons_dir disk db ps c itemLists hmeta hserve hsucc
     hitems,
   omap_page_items_flatten_length icons_dir disk
     (to_plain_text (api.meta db).title) ps itemLists hitems⟩

/-- Witness for C4: the two-page `sampleAPI` chain is consumed whole, the
second request carries cursor `7` returned by the first page, and the two
records yield the two items in API order. -/
theorem C4_pagination_one_item_per_record_witness :
    query_loop sampleAPI "/icons" [] "db" 2 0 =
      some (Except.ok (sampleRunItems, [0, 7])) :=
  (C4_pagination_one_item_per_record sampleAPI "/icons" [] "db"
    [sampleRespA, sampleRespB]
    [[{ uid := "p1", title := "A", subtitle := "DB",
        arg := "notion://www.notion.so/p1", icon_path := none,
        autocomplete := "A" }],
     [{ uid := "p2", title := "B", subtitle := "DB",
        arg := "notion://www.notion.so/p2",
        icon_path := some "/icons/p2.png", autocomplete := "B" }]] 0
    rfl ⟨rfl, rfl, trivial⟩ ⟨rfl, by decide, rfl, rfl, Or.inr rfl⟩ rfl).1

/-- C5: the title property name is the name of the first entry of the
first record's property map whose type tag is `"title"` (and the scan
fails when no entry qualifies); with that single name every record of the
page is converted; when the first record of a non-empty page has no
title-typed property the loop aborts with the dedicated error instead of
producing any item. -/
theorem C5_title_property_from_first_record
    (pre post : List (String × PropertyInfo)) (name : String)
    (info : PropertyInfo) (api : NotionAPI) (icons_dir : String)
    (disk : List String) (db : String) (c fuel : Nat) (first : NotionPage)
    (rest : List NotionPage) (tpn : String)
    (page_items : List AlfredItem) :
    ((∀ p ∈ pre, p.2.type ≠ "title") → info.type = "title" →
      find_in_props (pre ++ (name, info) :: post) = some name)
    ∧ ((∀ p ∈ pre, p.2.type ≠ "title") → find_in_props pre = none)
    ∧ ((api.meta db).status = 200 → (api.query db c).status = 200 →
        (api.query db c).results = first :: rest →
        find_title_property_name first = none →
        query_loop api icons_dir disk db (fuel + 1) c =
          some (Except.error
            "expected title property from Notion API, none found"))
    ∧ ((api.meta db).status = 200 → (api.query db c).status = 200 →
        (api.query db c).results = first :: rest →
        (api.query db c).has_more = false →
        find_title_property_name first = some tpn →
        omap (fun page_dict =>
            (notion_page_to_alfred_item icons_dir disk page_dict tpn
              (to_plain_text (api.meta db).title)).map Prod.fst)
          (first :: rest) = some page_items →
        query_loop api icons_dir disk db (fuel + 1) c =
          some (Except.ok (page_items, [c]))) := by
  refine ⟨find_in_props_first_title pre name info post,
    find_in_props_no_title pre, ?_, ?_⟩
  · intro hmeta hq hres hfind
    exact query_loop_no_title_prop api icons_dir disk db fuel c first rest
      hmeta hq hres hfind
  · intro hmeta hq hres hmore hfind homap
    have hstep := query_loop_page_step api icons_dir disk db fuel c first
      rest tpn page_items hmeta hq hres hfind homap
    rw [hmore] at hstep
    simpa using hstep

/-- Witness for C5: the scan skips a non-title property and picks
`"Subject"`; a page whose first record has no title-typed property makes
the loop abort with the dedicated message. -/
theorem C5_title_property_from_first_record_witness :
    find_in_props [("Note", samplePlainProp), ("Subject", sampleTitleProp)] =
      some "Subject"
    ∧ query_loop sampleNoTitleAPI "/icons" [] "db" 1 0 =
        some (Except.error
          "expected title property from Notion API, none found") :=
  ⟨(C5_title_property_from_first_record [("Note", samplePlainProp)] []
      "Subject" sampleTitleProp sampleNoTitleAPI "/icons" [] "db" 0 0
      sampleNoTitlePage [] "t" []).1 (by decide) (by decide),
   (C5_title_property_from_first_record [] [] "Subject" sampleTitleProp
      sampleNoTitleAPI "/icons" [] "db" 0 0 sampleNoTitlePage [] "t"
      []).2.2.1 rfl rfl rfl rfl⟩
